import Mathlib

/-
Verification of the request-lifecycle pipeline, service/repository contract,
lifecycle manager and logger-context of the starterkit Go API.

The definitions below are a shallow embedding of:
  api/internal/server/middleware.go   (middleware chain, responseWriter)
  api/internal/users/handler.go       (handlers, service, error taxonomy)
  api/internal/platform/logger/context.go (WithContext / FromContext)
  api/cmd/server/main.go              (shutdown sequence)
Machine integers are modelled as Int with explicit wrapping where the source
converts to int32; Go maps backing http.Header are modelled as association
lists with Get/Set semantics; the net/http response writer latches the first
WriteHeader call (later calls are "superfluous" and ignored), which is how
the status actually sent to the client is determined.
-/

/- ### Headers (Go http.Header Get/Set) -/

def headerGet (hs : List (String × String)) (k : String) : String :=
  match hs.find? (fun p => p.1 == k) with
  | some p => p.2
  | none => ""

def headerSet (hs : List (String × String)) (k v : String) : List (String × String) :=
  (k, v) :: hs.filter (fun p => !(p.1 == k))

theorem headerGet_set_same (hs : List (String × String)) (k v : String) :
    headerGet (headerSet hs k v) k = v := by
  simp [headerGet, headerSet, List.find?]

theorem headerGet_set_ne (hs : List (String × String)) (k k2 v : String)
    (h : k2 ≠ k) : headerGet (headerSet hs k v) k2 = headerGet hs k2 := by
  have hb : (k == k2) = false := by
    simp [beq_iff_eq]
    exact fun he => h he.symm
  simp only [headerGet, headerSet, List.find?, hb]
  induction hs with
  | nil => rfl
  | cons p rest ih =>
    by_cases hp : p.1 = k
    · have h1 : (p.1 == k) = true := by simp [beq_iff_eq, hp]
      have h2 : (p.1 == k2) = false := by
        simp [beq_iff_eq, hp]
        exact fun he => h he.symm
      simp [List.filter, h1, h2, List.find?]
      simpa [List.find?] using ih
    · have h1 : (p.1 == k) = false := by simp [beq_iff_eq, hp]
      simp [List.filter, h1, List.find?]
      cases hq : p.1 == k2 with
      | true => simp [List.find?, hq]
      | false =>
        simp [List.find?, hq]
        simpa [List.find?] using ih

/- ### Request, logger, context -/

structure Request where
  method : String
  path : String
  remoteAddr : String
  headers : List (String × String)
deriving Repr, DecidableEq

structure Logger where
  fields : List (String × String)
deriving Repr, DecidableEq

/-- The process-wide default logger installed by main via slog.SetDefault. -/
def defaultLogger : Logger := ⟨[]⟩

/-- Per-request context: the request-id value set by requestIDMiddleware, and
the logger entry set by logger.WithContext.  The logger entry is doubly
optional: the outer Option is "is the key present in the context", the inner
Option models the Go pointer (none = nil *slog.Logger). -/
structure ReqContext where
  requestID : Option String
  loggerEntry : Option (Option Logger)
deriving Repr, DecidableEq

/-- logger.WithContext: stores the given logger pointer under the logger key. -/
def WithContext (ctx : ReqContext) (l : Option Logger) : ReqContext :=
  { ctx with loggerEntry := some l }

/-- logger.FromContext: returns the stored pointer when the key is present
(the Go type assertion succeeds even for a stored nil pointer), and the
process default otherwise. -/
def FromContext (ctx : ReqContext) : Option Logger :=
  match ctx.loggerEntry with
  | some l => l
  | none => some defaultLogger

/- ### Response writers -/

/-- The real net/http response: the first WriteHeader latches the status sent
to the client; a Write with no prior WriteHeader implies WriteHeader(200). -/
structure RawWriter where
  headers : List (String × String)
  status : Option Nat
  bodyBytes : Nat
deriving Repr, DecidableEq

def rawWriteHeader (w : RawWriter) (code : Nat) : RawWriter :=
  match w.status with
  | some _ => w
  | none => { w with status := some code }

def rawWrite (w : RawWriter) (n : Nat) : RawWriter :=
  let w1 := rawWriteHeader w 200
  { w1 with bodyBytes := w1.bodyBytes + n }

/-- Status the client actually receives (200 when the handler returned
without ever calling WriteHeader). -/
def clientStatus (w : RawWriter) : Nat := w.status.getD 200

/-- The source's responseWriter wrapper: records the last status code passed
to WriteHeader (initialised to 200) and the byte count, forwarding to the
underlying writer. -/
structure responseWriter where
  raw : RawWriter
  statusCode : Nat
  bytesWritten : Nat
deriving Repr, DecidableEq

def rwWriteHeader (w : responseWriter) (code : Nat) : responseWriter :=
  { raw := rawWriteHeader w.raw code, statusCode := code, bytesWritten := w.bytesWritten }

def rwWrite (w : responseWriter) (n : Nat) : responseWriter :=
  { raw := rawWrite w.raw n, statusCode := w.statusCode, bytesWritten := w.bytesWritten + n }

def rwSetHeader (w : responseWriter) (k v : String) : responseWriter :=
  { w with raw := { w.raw with headers := headerSet w.raw.headers k v } }

/- ### Inner handler programs -/

/-- What an inner handler (route dispatch and below) may do to the response
writer it is given; panicAct raises a panic with the given value. -/
inductive HAction where
  | setHeader (k v : String)
  | writeHeader (code : Nat)
  | write (n : Nat)
  | panicAct (msg : String)
deriving Repr, DecidableEq

/-- Run an inner handler program; execution stops at the first panic, whose
value is returned in the second component. -/
def runHandler : List HAction → responseWriter → responseWriter × Option String
  | [], w => (w, none)
  | HAction.setHeader k v :: rest, w => runHandler rest (rwSetHeader w k v)
  | HAction.writeHeader c :: rest, w => runHandler rest (rwWriteHeader w c)
  | HAction.write n :: rest, w => runHandler rest (rwWrite w n)
  | HAction.panicAct m :: _, w => (w, some m)

def firstPanic : List HAction → Option String
  | [] => none
  | HAction.panicAct m :: _ => some m
  | _ :: rest => firstPanic rest

/- ### Log events -/

inductive Severity where
  | info
  | error
deriving Repr, DecidableEq

inductive LogEvent where
  | completion (requestID method path : String) (status : Nat) (bytes : Nat)
  | panicRecovered (recovered : String)
deriving Repr, DecidableEq

def LogEvent.sev : LogEvent → Severity
  | LogEvent.completion _ _ _ _ _ => Severity.info
  | LogEvent.panicRecovered _ => Severity.error

def isCompletion : LogEvent → Bool
  | LogEvent.completion _ _ _ _ _ => true
  | LogEvent.panicRecovered _ => false

def completionLogs (evs : List LogEvent) : List LogEvent := evs.filter isCompletion

def completionStatuses (evs : List LogEvent) : List Nat :=
  evs.filterMap fun e =>
    match e with
    | LogEvent.completion _ _ _ s _ => some s
    | LogEvent.panicRecovered _ => none

/-- The values recovered and logged at error severity. -/
def recoveredValues (evs : List LogEvent) : List String :=
  evs.filterMap fun e =>
    match e with
    | LogEvent.completion _ _ _ _ _ => none
    | LogEvent.panicRecovered m => some m

/- ### Middleware chain (middleware.go) -/

/-- The request id chosen by requestIDMiddleware: the incoming X-Request-ID
header when nonempty, otherwise the freshly generated uuid (passed in as
genID, since uuid.New is an effect of the environment). -/
def reqCorrelationID (req : Request) (genID : String) : String :=
  let incoming := headerGet req.headers "X-Request-ID"
  if incoming == "" then genID else incoming

/-- The writes http.Error performs on the wrapped writer inside the recovery
deferred function: two header sets, WriteHeader(500), and the 22-byte body
"Internal Server Error\n". -/
def recoverWrite (w : responseWriter) : responseWriter :=
  rwWrite
    (rwWriteHeader
      (rwSetHeader (rwSetHeader w "Content-Type" "text/plain; charset=utf-8")
        "X-Content-Type-Options" "nosniff") 500) 22

/-- recoveryMiddleware: runs the inner handler; a panic is recovered, logged
at error severity, and answered with http.Error; it never re-raises.  The
third component is a panic escaping this stage (never produced here). -/
def recoveryMiddleware (ctx : ReqContext) (acts : List HAction) (w : responseWriter) :
    responseWriter × List LogEvent × Option String :=
  match runHandler acts w with
  | (w1, none) => (w1, [], none)
  | (w1, some m) =>
    let _reqLogger := FromContext ctx
    (recoverWrite w1, [LogEvent.panicRecovered m], none)

/-- loggingMiddleware: builds the request logger, stores it in the context,
wraps the writer, calls the inner chain, and (when the inner chain returns
rather than unwinding) emits the single completion record with the wrapper's
captured status and byte count. -/
def loggingMiddleware (req : Request) (ctx : ReqContext) (raw : RawWriter)
    (acts : List HAction) : RawWriter × List LogEvent × Option String :=
  let requestID := (ctx.requestID).getD ""
  let requestLogger : Logger :=
    ⟨[("request_id", requestID), ("method", req.method), ("path", req.path),
      ("remote_addr", req.remoteAddr)]⟩
  let ctx2 := WithContext ctx (some requestLogger)
  let wrapped : responseWriter := ⟨raw, 200, 0⟩
  match recoveryMiddleware ctx2 acts wrapped with
  | (w1, evs, none) =>
    (w1.raw,
     evs ++
       [LogEvent.completion requestID req.method req.path w1.statusCode w1.bytesWritten],
     none)
  | (w1, evs, some m) => (w1.raw, evs, some m)

/-- requestIDMiddleware: chooses the correlation id, echoes it as a response
header, stores it in the context, and always invokes the next stage. -/
def requestIDMiddleware (req : Request) (genID : String) (ctx : ReqContext)
    (raw : RawWriter) (acts : List HAction) : RawWriter × List LogEvent × Option String :=
  let requestID := reqCorrelationID req genID
  let raw2 := { raw with headers := headerSet raw.headers "X-Request-ID" requestID }
  let ctx2 := { ctx with requestID := some requestID }
  loggingMiddleware req ctx2 raw2 acts

/-- corsMiddleware: sets the permissive cross-origin headers; OPTIONS
requests are answered 204 immediately without invoking the inner stages. -/
def corsMiddleware (req : Request) (genID : String) (ctx : ReqContext)
    (raw : RawWriter) (acts : List HAction) : RawWriter × List LogEvent × Option String :=
  let h1 := headerSet raw.headers "Access-Control-Allow-Origin" "*"
  let h2 := headerSet h1 "Access-Control-Allow-Methods" "GET, POST, PUT, DELETE, OPTIONS"
  let h3 := headerSet h2 "Access-Control-Allow-Headers" "Content-Type, X-User-Email, X-Request-ID"
  let h4 := headerSet h3 "Access-Control-Max-Age" "3600"
  let raw1 := { raw with headers := h4 }
  if req.method == "OPTIONS" then (rawWriteHeader raw1 204, [], none)
  else requestIDMiddleware req genID ctx raw1 acts

/-- applyMiddleware composed and applied to a fresh request: cors is
outermost, then request id, logging, recovery, then the inner handler. -/
def serveRequest (req : Request) (genID : String) (acts : List HAction) :
    RawWriter × List LogEvent × Option String :=
  corsMiddleware req genID ⟨none, none⟩ ⟨[], none, 0⟩ acts

/-- One goroutine per request and no shared mutable state between requests:
serving a batch is just serving each request. -/
def serveSeq (xs : List (Request × String × List HAction)) :
    List (RawWriter × List LogEvent × Option String) :=
  xs.map fun t => serveRequest t.1 t.2.1 t.2.2

/- ### Chain characterisation -/

def corsBaseHeaders : List (String × String) :=
  headerSet
    (headerSet
      (headerSet (headerSet [] "Access-Control-Allow-Origin" "*")
        "Access-Control-Allow-Methods" "GET, POST, PUT, DELETE, OPTIONS")
      "Access-Control-Allow-Headers" "Content-Type, X-User-Email, X-Request-ID")
    "Access-Control-Max-Age" "3600"

/-- Response-writer state handed to the logging stage for a non-OPTIONS
request: cors headers plus the echoed request id, nothing written yet. -/
def entryWriter (req : Request) (genID : String) : RawWriter :=
  ⟨headerSet corsBaseHeaders "X-Request-ID" (reqCorrelationID req genID), none, 0⟩

theorem serveRequest_nonoptions (req : Request) (genID : String) (acts : List HAction)
    (hm : (req.method == "OPTIONS") = false) :
    serveRequest req genID acts =
      match runHandler acts ⟨entryWriter req genID, 200, 0⟩ with
      | (w1, none) =>
        (w1.raw,
         [LogEvent.completion (reqCorrelationID req genID) req.method req.path
            w1.statusCode w1.bytesWritten],
         none)
      | (w1, some m) =>
        ((recoverWrite w1).raw,
         [LogEvent.panicRecovered m,
          LogEvent.completion (reqCorrelationID req genID) req.method req.path
            (recoverWrite w1).statusCode (recoverWrite w1).bytesWritten],
         none) := by
  cases hr : runHandler acts ⟨entryWriter req genID, 200, 0⟩ with
  | mk w1 p =>
    cases p with
    | none =>
      simp only [serveRequest, corsMiddleware, hm, Bool.false_eq_true, if_false,
        requestIDMiddleware, loggingMiddleware, recoveryMiddleware, entryWriter,
        corsBaseHeaders] at hr ⊢
      rw [hr]
      simp
    | some m =>
      simp only [serveRequest, corsMiddleware, hm, Bool.false_eq_true, if_false,
        requestIDMiddleware, loggingMiddleware, recoveryMiddleware, entryWriter,
        corsBaseHeaders] at hr ⊢
      rw [hr]
      simp

/- ### Well-behaved handlers and status accuracy -/

/-- Scan of a handler program: wh/wr record whether a WriteHeader/Write has
already been executed.  A program is accepted when it calls WriteHeader at
most once, never after a Write, and writes nothing before a panic. -/
def wbScan : List HAction → Bool → Bool → Bool
  | [], _, _ => true
  | HAction.setHeader _ _ :: rest, wh, wr => wbScan rest wh wr
  | HAction.writeHeader _ :: rest, wh, wr => !wh && !wr && wbScan rest true wr
  | HAction.write _ :: rest, wh, _ => wbScan rest wh true
  | HAction.panicAct _ :: _, wh, wr => !wh && !wr

def wellBehaved (acts : List HAction) : Bool := wbScan acts false false

theorem runHandler_ok_status (acts : List HAction) :
    ∀ (wh wr : Bool) (w w1 : responseWriter),
    runHandler acts w = (w1, none) →
    wbScan acts wh wr = true →
    w.statusCode = w.raw.status.getD 200 →
    (wh = false → wr = false → w.raw.status = none) →
    w1.statusCode = w1.raw.status.getD 200 := by
  induction acts with
  | nil =>
    intro wh wr w w1 hrun _ hP _
    simp only [runHandler] at hrun
    cases hrun
    exact hP
  | cons a rest ih =>
    intro wh wr w w1 hrun hwb hP hN
    cases a with
    | setHeader k v =>
      simp only [runHandler] at hrun
      simp only [wbScan] at hwb
      exact ih wh wr _ w1 hrun hwb (by simp [rwSetHeader, hP]) (by simp [rwSetHeader]; exact hN)
    | writeHeader c =>
      simp only [runHandler] at hrun
      simp only [wbScan, Bool.and_eq_true, Bool.not_eq_true'] at hwb
      obtain ⟨⟨hwh, hwr⟩, hwb'⟩ := hwb
      have hraw : w.raw.status = none := hN hwh hwr
      refine ih true wr _ w1 hrun hwb' ?_ ?_
      · simp [rwWriteHeader, rawWriteHeader, hraw]
      · intro h; cases h
    | write n =>
      simp only [runHandler] at hrun
      simp only [wbScan] at hwb
      refine ih wh true _ w1 hrun hwb ?_ ?_
      · simp only [rwWrite, rawWrite, rawWriteHeader]
        cases hs : w.raw.status with
        | none => simp [hs] at hP; simp [hs, hP]
        | some s => simp [hs] at hP; simp [hs, hP]
      · intro _ h; cases h
    | panicAct m =>
      simp only [runHandler] at hrun
      cases hrun

theorem runHandler_panic_state (acts : List HAction) :
    ∀ (wh wr : Bool) (w w1 : responseWriter) (m : String),
    runHandler acts w = (w1, some m) →
    wbScan acts wh wr = true →
    (w1.raw.status = w.raw.status ∧ w1.statusCode = w.statusCode
      ∧ w1.bytesWritten = w.bytesWritten) ∧ wh = false ∧ wr = false := by
  induction acts with
  | nil =>
    intro wh wr w w1 m hrun _
    simp only [runHandler] at hrun
    cases hrun
  | cons a rest ih =>
    intro wh wr w w1 m hrun hwb
    cases a with
    | setHeader k v =>
      simp only [runHandler] at hrun
      simp only [wbScan] at hwb
      obtain ⟨⟨h1, h2, h3⟩, hwh, hwr⟩ := ih wh wr _ w1 m hrun hwb
      exact ⟨⟨by simpa [rwSetHeader] using h1, by simpa [rwSetHeader] using h2,
        by simpa [rwSetHeader] using h3⟩, hwh, hwr⟩
    | writeHeader c =>
      simp only [runHandler] at hrun
      simp only [wbScan, Bool.and_eq_true, Bool.not_eq_true'] at hwb
      obtain ⟨⟨hwh, hwr⟩, hwb'⟩ := hwb
      obtain ⟨_, hfalse, _⟩ := ih true wr _ w1 m hrun hwb'
      cases hfalse
    | write n =>
      simp only [runHandler] at hrun
      simp only [wbScan] at hwb
      obtain ⟨_, _, hfalse⟩ := ih wh true _ w1 m hrun hwb
      cases hfalse
    | panicAct m2 =>
      simp only [runHandler] at hrun
      obtain ⟨hw, hm⟩ := Prod.mk.injEq .. ▸ hrun
      simp only [wbScan, Bool.and_eq_true, Bool.not_eq_true'] at hwb
      exact ⟨hw.symm ▸ ⟨rfl, rfl, rfl⟩, hwb.1, hwb.2⟩

/- ### Auxiliary facts about the chain -/

theorem runHandler_snd (acts : List HAction) :
    ∀ w : responseWriter, (runHandler acts w).2 = firstPanic acts := by
  induction acts with
  | nil => intro w; rfl
  | cons a rest ih =>
    intro w
    cases a with
    | setHeader k v => simpa [runHandler, firstPanic] using ih (rwSetHeader w k v)
    | writeHeader c => simpa [runHandler, firstPanic] using ih (rwWriteHeader w c)
    | write n => simpa [runHandler, firstPanic] using ih (rwWrite w n)
    | panicAct m => rfl

theorem rawWriteHeader_headers (w : RawWriter) (c : Nat) :
    (rawWriteHeader w c).headers = w.headers := by
  cases h : w.status <;> simp [rawWriteHeader, h]

theorem rawWrite_headers (w : RawWriter) (n : Nat) :
    (rawWrite w n).headers = w.headers := by
  simp [rawWrite, rawWriteHeader_headers]

/-- True when the handler program never sets the header named k itself. -/
def keepsKey (k : String) (acts : List HAction) : Bool :=
  acts.all fun a =>
    match a with
    | HAction.setHeader k2 _ => !(k2 == k)
    | _ => true

theorem runHandler_headerGet (k : String) (acts : List HAction) :
    ∀ w : responseWriter, keepsKey k acts = true →
    headerGet (runHandler acts w).1.raw.headers k = headerGet w.raw.headers k := by
  induction acts with
  | nil => intro w _; rfl
  | cons a rest ih =>
    intro w hk
    cases a with
    | setHeader k2 v =>
      simp only [keepsKey, List.all_cons, Bool.and_eq_true, Bool.not_eq_true'] at hk
      have hne : k ≠ k2 := by
        intro he
        have := hk.1
        simp [beq_iff_eq, he] at this
      simp only [runHandler]
      rw [ih (rwSetHeader w k2 v) hk.2]
      simp [rwSetHeader, headerGet_set_ne _ _ _ _ hne]
    | writeHeader c =>
      simp only [keepsKey, List.all_cons, Bool.and_eq_true] at hk
      simp only [runHandler]
      rw [ih (rwWriteHeader w c) hk.2]
      simp [rwWriteHeader, rawWriteHeader_headers]
    | write n =>
      simp only [keepsKey, List.all_cons, Bool.and_eq_true] at hk
      simp only [runHandler]
      rw [ih (rwWrite w n) hk.2]
      simp [rwWrite, rawWrite_headers]
    | panicAct m => rfl

theorem recoverWrite_headerGet_rid (w : responseWriter) :
    headerGet (recoverWrite w).raw.headers "X-Request-ID"
      = headerGet w.raw.headers "X-Request-ID" := by
  simp only [recoverWrite, rwWrite, rwWriteHeader, rwSetHeader, rawWrite_headers,
    rawWriteHeader_headers]
  rw [headerGet_set_ne _ _ _ _ (by decide), headerGet_set_ne _ _ _ _ (by decide)]

theorem recoverWrite_statusCode (w : responseWriter) :
    (recoverWrite w).statusCode = 500 := rfl

theorem recoverWrite_status_of_none (w : responseWriter) (h : w.raw.status = none) :
    (recoverWrite w).raw.status = some 500 := by
  simp [recoverWrite, rwWrite, rwWriteHeader, rwSetHeader, rawWrite, rawWriteHeader, h]

theorem method_beq_false {req : Request} (hm : req.method ≠ "OPTIONS") :
    (req.method == "OPTIONS") = false := by
  cases hb : req.method == "OPTIONS" with
  | true => exact absurd (by simpa [beq_iff_eq] using hb) hm
  | false => rfl

/-- For a non-preflight request whose handler leaves X-Request-ID alone, the
response carries the correlation id in X-Request-ID. -/
theorem serve_rid (req : Request) (genID : String) (acts : List HAction)
    (hm : req.method ≠ "OPTIONS") (hk : keepsKey "X-Request-ID" acts = true) :
    headerGet (serveRequest req genID acts).1.headers "X-Request-ID"
      = reqCorrelationID req genID := by
  rw [serveRequest_nonoptions _ _ _ (method_beq_false hm)]
  obtain ⟨w1, p, hr⟩ : ∃ w1 p, runHandler acts ⟨entryWriter req genID, 200, 0⟩ = (w1, p) :=
    ⟨_, _, rfl⟩
  have hkeep := runHandler_headerGet "X-Request-ID" acts ⟨entryWriter req genID, 200, 0⟩ hk
  rw [hr] at hkeep
  have hentry : headerGet (entryWriter req genID).headers "X-Request-ID"
      = reqCorrelationID req genID := headerGet_set_same _ _ _
  rw [hr]
  cases p with
  | none => simpa [hentry] using hkeep
  | some m =>
    simp only []
    rw [recoverWrite_headerGet_rid]
    simpa [hentry] using hkeep

/- ### Claims about the middleware chain -/

/-- C1 (amended): for every request that the origin-policy stage forwards to
the inner stages (any non-OPTIONS method), exactly one completion log record
is emitted, and — whenever the inner chain calls WriteHeader at most once,
never after a Write, and has written nothing before a panic — its recorded
status code equals the status code actually written to the client, including
when that status is the 500 produced by panic recovery.  (OPTIONS pre-flight
requests are short-circuited before the logging stage and produce no
completion record at all; see the counterexample.) -/
theorem completion_log_accuracy (req : Request) (genID : String) (acts : List HAction)
    (hm : req.method ≠ "OPTIONS") :
    (completionLogs (serveRequest req genID acts).2.1).length = 1
    ∧ (wellBehaved acts = true →
        completionStatuses (serveRequest req genID acts).2.1
          = [clientStatus (serveRequest req genID acts).1]) := by
  obtain ⟨w1, p, hr⟩ : ∃ w1 p, runHandler acts ⟨entryWriter req genID, 200, 0⟩ = (w1, p) :=
    ⟨_, _, rfl⟩
  have hchar := serveRequest_nonoptions req genID acts (method_beq_false hm)
  rw [hr] at hchar
  cases p with
  | none =>
    simp only [] at hchar
    constructor
    · rw [hchar]; simp [completionLogs, isCompletion]
    · intro hwb
      have hs := runHandler_ok_status acts false false ⟨entryWriter req genID, 200, 0⟩ w1
        hr hwb rfl (fun _ _ => rfl)
      rw [hchar]
      simp [completionStatuses, clientStatus, hs]
  | some m =>
    simp only [] at hchar
    constructor
    · rw [hchar]; simp [completionLogs, isCompletion]
    · intro hwb
      have hst := (runHandler_panic_state acts false false _ _ _ hr hwb).1.1
      have hnone : w1.raw.status = none := by rw [hst]; rfl
      rw [hchar]
      simp [completionStatuses, clientStatus, recoverWrite_statusCode,
        recoverWrite_status_of_none w1 hnone]

/-- C1 witness: a plain GET whose handler writes a 200 header and 17 body
bytes yields exactly one completion record whose status is the client
status. -/
theorem completion_log_accuracy_witness :
    (completionLogs (serveRequest ⟨"GET", "/api/v1/users", "127.0.0.1:41001", []⟩
        "b3c4de01-aaaa-bbbb-cccc-000000000001" [HAction.writeHeader 200, HAction.write 17]).2.1).length = 1
    ∧ completionStatuses (serveRequest ⟨"GET", "/api/v1/users", "127.0.0.1:41001", []⟩
        "b3c4de01-aaaa-bbbb-cccc-000000000001" [HAction.writeHeader 200, HAction.write 17]).2.1
      = [clientStatus (serveRequest ⟨"GET", "/api/v1/users", "127.0.0.1:41001", []⟩
          "b3c4de01-aaaa-bbbb-cccc-000000000001" [HAction.writeHeader 200, HAction.write 17]).1] := by
  have h := completion_log_accuracy ⟨"GET", "/api/v1/users", "127.0.0.1:41001", []⟩
    "b3c4de01-aaaa-bbbb-cccc-000000000001" [HAction.writeHeader 200, HAction.write 17]
    (by decide)
  exact ⟨h.1, h.2 rfl⟩

/-- C1 counterexample: an OPTIONS pre-flight request is processed by the
middleware chain (the origin-policy stage answers it 204) but zero completion
log records are emitted, refuting "exactly one completion log record for
every request processed by the chain". -/
theorem c1_options_no_completion_log :
    completionLogs (serveRequest ⟨"OPTIONS", "/api/v1/users", "127.0.0.1:41002", []⟩
        "b3c4de01-aaaa-bbbb-cccc-000000000002" [HAction.writeHeader 200]).2.1 = [] := rfl

/-- C5: a panic in the inner handler is recovered: it never escapes the
chain, the recovered value is logged at error severity, the client receives
the generic 500 when nothing had been written before the panic, and a
subsequent request is served exactly as if the panicking request had never
happened (the chain keeps no state across requests). -/
theorem panic_containment (req : Request) (genID : String) (acts : List HAction)
    (m : String) (hm : req.method ≠ "OPTIONS") (hp : firstPanic acts = some m) :
    (serveRequest req genID acts).2.2 = none
    ∧ recoveredValues (serveRequest req genID acts).2.1 = [m]
    ∧ (∀ e ∈ (serveRequest req genID acts).2.1,
        (recoveredValues [e]).length = 1 → e.sev = Severity.error)
    ∧ (wellBehaved acts = true → clientStatus (serveRequest req genID acts).1 = 500)
    ∧ (∀ y : Request × String × List HAction,
        serveSeq [(req, genID, acts), y] =
          [serveRequest req genID acts, serveRequest y.1 y.2.1 y.2.2]) := by
  obtain ⟨w1, p, hr⟩ : ∃ w1 p, runHandler acts ⟨entryWriter req genID, 200, 0⟩ = (w1, p) :=
    ⟨_, _, rfl⟩
  have hp2 : p = some m := by
    have hsnd := runHandler_snd acts ⟨entryWriter req genID, 200, 0⟩
    rw [hr] at hsnd
    simpa [hp] using hsnd
  subst hp2
  have hchar := serveRequest_nonoptions req genID acts (method_beq_false hm)
  rw [hr] at hchar
  simp only [] at hchar
  refine ⟨by rw [hchar], by rw [hchar]; simp [recoveredValues], ?_, ?_, fun y => rfl⟩
  · intro e he hrec
    rw [hchar] at he
    simp only [List.mem_cons, List.mem_singleton] at he
    rcases he with he | he | he
    · rw [he]; rfl
    · rw [he] at hrec; simp [recoveredValues] at hrec
    · cases he
  · intro hwb
    have hst := (runHandler_panic_state acts false false _ _ _ hr hwb).1.1
    have hnone : w1.raw.status = none := by rw [hst]; rfl
    rw [hchar]
    simp [clientStatus, recoverWrite_status_of_none w1 hnone]

/-- C5 witness at a concrete panicking handler followed by a healthy
request. -/
theorem panic_containment_witness :
    (serveRequest ⟨"GET", "/health", "127.0.0.1:41003", []⟩
        "b3c4de01-aaaa-bbbb-cccc-000000000003" [HAction.panicAct "boom"]).2.2 = none
    ∧ recoveredValues (serveRequest ⟨"GET", "/health", "127.0.0.1:41003", []⟩
        "b3c4de01-aaaa-bbbb-cccc-000000000003" [HAction.panicAct "boom"]).2.1 = ["boom"]
    ∧ clientStatus (serveRequest ⟨"GET", "/health", "127.0.0.1:41003", []⟩
        "b3c4de01-aaaa-bbbb-cccc-000000000003" [HAction.panicAct "boom"]).1 = 500
    ∧ serveSeq [(⟨"GET", "/health", "127.0.0.1:41003", []⟩,
          "b3c4de01-aaaa-bbbb-cccc-000000000003", [HAction.panicAct "boom"]),
        (⟨"GET", "/health", "127.0.0.1:41004", []⟩,
          "b3c4de01-aaaa-bbbb-cccc-000000000004", [HAction.writeHeader 200])] =
      [serveRequest ⟨"GET", "/health", "127.0.0.1:41003", []⟩
          "b3c4de01-aaaa-bbbb-cccc-000000000003" [HAction.panicAct "boom"],
        serveRequest ⟨"GET", "/health", "127.0.0.1:41004", []⟩
          "b3c4de01-aaaa-bbbb-cccc-000000000004" [HAction.writeHeader 200]] := by
  have h := panic_containment ⟨"GET", "/health", "127.0.0.1:41003", []⟩
    "b3c4de01-aaaa-bbbb-cccc-000000000003" [HAction.panicAct "boom"] "boom"
    (by decide) rfl
  exact ⟨h.1, h.2.1, h.2.2.2.1 rfl, h.2.2.2.2 _⟩

/-- C6 (amended): for every request the origin-policy stage forwards (any
non-OPTIONS method) whose handler does not itself set X-Request-ID, an
incoming correlation id is echoed verbatim in the response header, and when
absent the freshly generated id appears and is nonempty.  (For an OPTIONS
pre-flight the 204 is written before the correlation stage runs and no echo
happens; see the counterexample.) -/
theorem requestID_roundtrip (req : Request) (genID : String) (acts : List HAction)
    (hm : req.method ≠ "OPTIONS") (hk : keepsKey "X-Request-ID" acts = true) :
    (headerGet req.headers "X-Request-ID" ≠ "" →
      headerGet (serveRequest req genID acts).1.headers "X-Request-ID"
        = headerGet req.headers "X-Request-ID")
    ∧ (headerGet req.headers "X-Request-ID" = "" → genID ≠ "" →
      headerGet (serveRequest req genID acts).1.headers "X-Request-ID" = genID
      ∧ headerGet (serveRequest req genID acts).1.headers "X-Request-ID" ≠ "") := by
  have hmain := serve_rid req genID acts hm hk
  constructor
  · intro hne
    rw [hmain]
    simp only [reqCorrelationID]
    have hb : (headerGet req.headers "X-Request-ID" == "") = false := by
      cases hbb : headerGet req.headers "X-Request-ID" == "" with
      | true => exact absurd (by simpa [beq_iff_eq] using hbb) hne
      | false => rfl
    simp [hb]
  · intro heq hgen
    rw [hmain]
    simp only [reqCorrelationID, heq]
    exact ⟨by simp, by simp [hgen]⟩

/-- C6 witness: an incoming id is echoed verbatim; without one the generated
id appears. -/
theorem requestID_roundtrip_witness :
    headerGet (serveRequest ⟨"GET", "/api/v1/users", "127.0.0.1:41005",
        [("X-Request-ID", "abc123")]⟩ "b3c4de01-aaaa-bbbb-cccc-000000000005" []).1.headers
      "X-Request-ID" = "abc123"
    ∧ headerGet (serveRequest ⟨"GET", "/api/v1/users", "127.0.0.1:41006", []⟩
        "b3c4de01-aaaa-bbbb-cccc-000000000006" []).1.headers "X-Request-ID"
      = "b3c4de01-aaaa-bbbb-cccc-000000000006" := by
  have h1 := requestID_roundtrip ⟨"GET", "/api/v1/users", "127.0.0.1:41005",
    [("X-Request-ID", "abc123")]⟩ "b3c4de01-aaaa-bbbb-cccc-000000000005" []
    (by decide) rfl
  have h2 := requestID_roundtrip ⟨"GET", "/api/v1/users", "127.0.0.1:41006", []⟩
    "b3c4de01-aaaa-bbbb-cccc-000000000006" [] (by decide) rfl
  exact ⟨(h1.1 (by decide)).trans rfl, (h2.2 rfl (by decide)).1⟩

/-- C6 counterexample: an OPTIONS pre-flight request carrying an
X-Request-ID header is answered without the echo, refuting the unqualified
round-trip claim. -/
theorem c6_preflight_no_echo :
    headerGet (serveRequest ⟨"OPTIONS", "/api/v1/users", "127.0.0.1:41007",
        [("X-Request-ID", "abc123")]⟩ "b3c4de01-aaaa-bbbb-cccc-000000000007" []).1.headers
      "X-Request-ID" ≠ "abc123" := by decide

/-- C7 (amended): every response to a request the origin-policy stage
forwards (any non-OPTIONS method, handler leaving X-Request-ID alone)
carries X-Request-ID equal to the request's correlation id; the 204
pre-flight response, produced before the correlation stage, carries no
X-Request-ID header (see the counterexample). -/
theorem response_request_id_header (req : Request) (genID : String)
    (acts : List HAction) (hm : req.method ≠ "OPTIONS")
    (hk : keepsKey "X-Request-ID" acts = true) :
    headerGet (serveRequest req genID acts).1.headers "X-Request-ID"
      = reqCorrelationID req genID :=
  serve_rid req genID acts hm hk

/-- C7 witness at a concrete GET request. -/
theorem response_request_id_header_witness :
    headerGet (serveRequest ⟨"GET", "/api/v1/users/42", "127.0.0.1:41008", []⟩
        "b3c4de01-aaaa-bbbb-cccc-000000000008" [HAction.writeHeader 404]).1.headers
      "X-Request-ID"
      = reqCorrelationID ⟨"GET", "/api/v1/users/42", "127.0.0.1:41008", []⟩
          "b3c4de01-aaaa-bbbb-cccc-000000000008" :=
  response_request_id_header ⟨"GET", "/api/v1/users/42", "127.0.0.1:41008", []⟩
    "b3c4de01-aaaa-bbbb-cccc-000000000008" [HAction.writeHeader 404] (by decide) rfl

/-- C7 counterexample: the 204 pre-flight response carries no X-Request-ID
header at all, refuting "every response carries X-Request-ID equal to the
correlation identifier". -/
theorem c7_preflight_missing_request_id :
    (serveRequest ⟨"OPTIONS", "/api/v1/users/42", "127.0.0.1:41009", []⟩
        "b3c4de01-aaaa-bbbb-cccc-000000000009" []).1.status = some 204
    ∧ headerGet (serveRequest ⟨"OPTIONS", "/api/v1/users/42", "127.0.0.1:41009", []⟩
        "b3c4de01-aaaa-bbbb-cccc-000000000009" []).1.headers "X-Request-ID"
      ≠ reqCorrelationID ⟨"OPTIONS", "/api/v1/users/42", "127.0.0.1:41009", []⟩
          "b3c4de01-aaaa-bbbb-cccc-000000000009" := by
  constructor
  · rfl
  · decide

/- ### Users service and handlers (users/handler.go) -/

structure User where
  id : String
  email : String
  name : String
deriving Repr, DecidableEq

inductive ResponseBody where
  | errorMsg (m : String)
  | userBody (u : User)
  | listBody (users : List User) (limit offset : Int)
deriving Repr, DecidableEq

structure HttpResponse where
  status : Nat
  contentType : String
  body : ResponseBody
deriving Repr, DecidableEq

def respondWithJSON (code : Nat) (b : ResponseBody) : HttpResponse :=
  ⟨code, "application/json", b⟩

def respondWithError (code : Nat) (m : String) : HttpResponse :=
  respondWithJSON code (ResponseBody.errorMsg m)

/- #### google/uuid.Parse -/

def isHexDigitChar (c : Char) : Bool :=
  ('0' ≤ c && c ≤ '9') || ('a' ≤ c && c ≤ 'f') || ('A' ≤ c && c ≤ 'F')

def asciiLower (c : Char) : Char :=
  if 'A' ≤ c && c ≤ 'Z' then Char.ofNat (c.toNat + 32) else c

/-- Canonical 8-4-4-4-12 hyphenated form check; returns the lower-cased
canonical string (what uuid.UUID.String() later produces for the parsed
value, and hence the key the store is queried with). -/
def canonicalize36 (cs : List Char) : Option String :=
  if cs.length == 36
      && (List.range 36).all (fun i =>
        if i == 8 || i == 13 || i == 18 || i == 23 then cs.getD i ' ' == '-'
        else isHexDigitChar (cs.getD i ' '))
  then some (String.mk (cs.map asciiLower))
  else none

def hyphenate32 (cs : List Char) : String :=
  String.mk (cs.take 8 ++ '-' :: (cs.drop 8).take 4 ++ '-' :: (cs.drop 12).take 4
    ++ '-' :: (cs.drop 16).take 4 ++ '-' :: cs.drop 20)

/-- uuid.Parse accepts the canonical 36-char form, a urn:uuid: prefixed
form, a braced form and a bare 32-hex form; the result is rendered in
canonical lower-case hyphenated form. -/
def parseUUID (s : String) : Option String :=
  let cs := s.data
  if cs.length == 36 then canonicalize36 cs
  else if cs.length == 45 then
    if (cs.take 9).map asciiLower == "urn:uuid:".data then canonicalize36 (cs.drop 9)
    else none
  else if cs.length == 38 then
    match cs with
    | '{' :: rest => if rest.getLast? == some '}' then canonicalize36 rest.dropLast else none
    | _ => none
  else if cs.length == 32 then
    if cs.all isHexDigitChar then some (hyphenate32 (cs.map asciiLower)) else none
  else none

/- #### strconv.Atoi -/

def digitVal (c : Char) : Option Nat :=
  if '0' ≤ c && c ≤ '9' then some (c.toNat - '0'.toNat) else none

def digitsToNat (cs : List Char) : Option Nat :=
  if cs.isEmpty then none
  else
    cs.foldl
      (fun acc c =>
        match acc, digitVal c with
        | some a, some d => some (a * 10 + d)
        | _, _ => none)
      (some 0)

/-- Go strconv.Atoi (= ParseInt base 10, 64-bit int): optional sign, at
least one digit, all digits, 64-bit range; anything else is an error. -/
def goAtoi (s : String) : Option Int :=
  let signSplit : Bool × List Char :=
    match s.data with
    | '+' :: rest => (false, rest)
    | '-' :: rest => (true, rest)
    | cs => (false, cs)
  match digitsToNat signSplit.2 with
  | none => none
  | some n =>
    if signSplit.1 then
      if n ≤ 2 ^ 63 then some (-(n : Int)) else none
    else
      if n ≤ 2 ^ 63 - 1 then some (n : Int) else none

/- #### Store boundary (Querier over sqlc) -/

inductive GetRowResult where
  | row (u : User)
  | noRows
  | failure (e : String)
deriving Repr, DecidableEq

inductive ListRowsResult where
  | rows (us : List User)
  | failure (e : String)
deriving Repr, DecidableEq

/-- The Querier the service depends on.  getUserByIDRow is keyed by the
canonical uuid string (the value pgID carries); noRows is pgx.ErrNoRows. -/
structure Store where
  getUserByIDRow : String → GetRowResult
  listUsersRows : Int → Int → ListRowsResult

inductive StoreCall where
  | getCall (id : String)
  | listCall (limit offset : Int)
deriving Repr, DecidableEq

/-- Service-level errors: ErrUserNotFound, or the untouched store error. -/
inductive ServiceError where
  | userNotFound
  | storeFailure (e : String)
deriving Repr, DecidableEq

/-- Service.GetUserByID: zero rows becomes ErrUserNotFound, any other store
failure is returned unchanged; the second component records the store calls
issued. -/
def Service.GetUserByID (st : Store) (id : String) :
    Except ServiceError User × List StoreCall :=
  (match st.getUserByIDRow id with
   | GetRowResult.noRows => Except.error ServiceError.userNotFound
   | GetRowResult.failure e => Except.error (ServiceError.storeFailure e)
   | GetRowResult.row u => Except.ok u,
   [StoreCall.getCall id])

/-- Wrap-around conversion to int32 performed on the clamped values when
building db.ListUsersParams. -/
def toInt32 (x : Int) : Int := (x + 2 ^ 31) % 2 ^ 32 - 2 ^ 31

/-- Service.ListUsers: defaulting and clamping exactly as in the source
(limit <= 0 defaults to 20, then limit > 100 clamps to 100, negative offset
clamps to 0), then the int32-converted values go to the store. -/
def Service.ListUsers (st : Store) (limit offset : Int) :
    Except String (List User) × List StoreCall :=
  let limit1 := if limit ≤ 0 then 20 else limit
  let limit2 := if limit1 > 100 then 100 else limit1
  let offset1 := if offset < 0 then 0 else offset
  let la := toInt32 limit2
  let oa := toInt32 offset1
  (match st.listUsersRows la oa with
   | ListRowsResult.rows us => Except.ok us
   | ListRowsResult.failure e => Except.error e,
   [StoreCall.listCall la oa])

/-- The limit actually applied at the repository boundary. -/
def appliedLimit (limit : Int) : Int :=
  toInt32 (if (if limit ≤ 0 then 20 else limit) > 100 then 100
           else (if limit ≤ 0 then 20 else limit))

/-- The offset actually applied at the repository boundary. -/
def appliedOffset (offset : Int) : Int :=
  toInt32 (if offset < 0 then 0 else offset)

/-- Handler.HandleGetUser: empty id → 400; unparsable id → 400 before any
service/store call; then the service outcome is translated (ErrUserNotFound
→ 404, anything else → 500 with a generic message). -/
def Handler.HandleGetUser (st : Store) (idStr : String) :
    HttpResponse × List StoreCall :=
  if idStr == "" then (respondWithError 400 "user ID is required", [])
  else
    match parseUUID idStr with
    | none => (respondWithError 400 "invalid user ID format", [])
    | some canon =>
      match Service.GetUserByID st canon with
      | (Except.error ServiceError.userNotFound, calls) =>
        (respondWithError 404 "user not found", calls)
      | (Except.error (ServiceError.storeFailure _), calls) =>
        (respondWithError 500 "internal server error", calls)
      | (Except.ok u, calls) =>
        (respondWithJSON 200 (ResponseBody.userBody u), calls)

/-- Handler.HandleListUsers: query strings "" mean absent (Go Query().Get);
a present value that fails Atoi or is negative is a 400; otherwise the raw
(unclamped) values go to the service and are echoed in the 200 body. -/
def Handler.HandleListUsers (st : Store) (limitStr offsetStr : String) :
    HttpResponse × List StoreCall :=
  let limitRes : Except HttpResponse Int :=
    if limitStr == "" then Except.ok 20
    else
      match goAtoi limitStr with
      | none => Except.error (respondWithError 400 "invalid limit parameter")
      | some v =>
        if v < 0 then Except.error (respondWithError 400 "invalid limit parameter")
        else Except.ok v
  match limitRes with
  | Except.error resp => (resp, [])
  | Except.ok limit =>
    let offsetRes : Except HttpResponse Int :=
      if offsetStr == "" then Except.ok 0
      else
        match goAtoi offsetStr with
        | none => Except.error (respondWithError 400 "invalid offset parameter")
        | some v =>
          if v < 0 then Except.error (respondWithError 400 "invalid offset parameter")
          else Except.ok v
    match offsetRes with
    | Except.error resp => (resp, [])
    | Except.ok offset =>
      match Service.ListUsers st limit offset with
      | (Except.error _, calls) => (respondWithError 500 "internal server error", calls)
      | (Except.ok us, calls) =>
        (respondWithJSON 200 (ResponseBody.listBody us limit offset), calls)

/-- A store with no users and no failures, used to instantiate witnesses. -/
def emptyStore : Store :=
  ⟨fun _ => GetRowResult.noRows, fun _ _ => ListRowsResult.rows []⟩

/- ### Claims about the service/repository contract -/

/-- C4: every list call reaches the repository boundary with the clamped
parameters, and the clamps are exactly: limit > 100 applies 100, limit <= 0
(or the absent-parameter default) applies 20, offset < 0 applies 0. -/
theorem listUsers_pagination_invariants (st : Store) (limit offset : Int) :
    (Service.ListUsers st limit offset).2
      = [StoreCall.listCall (appliedLimit limit) (appliedOffset offset)]
    ∧ (100 < limit → appliedLimit limit = 100)
    ∧ (limit ≤ 0 → appliedLimit limit = 20)
    ∧ (offset < 0 → appliedOffset offset = 0) := by
  refine ⟨rfl, ?_, ?_, ?_⟩
  · intro h
    have h1 : ¬ limit ≤ 0 := by omega
    unfold appliedLimit
    rw [if_neg h1, if_pos (by omega : limit > 100)]
    decide
  · intro h
    unfold appliedLimit
    rw [if_pos h, if_neg (by norm_num : ¬ (20 : Int) > 100)]
    decide
  · intro h
    unfold appliedOffset
    rw [if_pos h]
    decide

/-- C4 witness at limit 500, offset -5. -/
theorem listUsers_pagination_invariants_witness :
    (Service.ListUsers emptyStore 500 (-5)).2 = [StoreCall.listCall 100 0]
    ∧ appliedLimit 500 = 100 ∧ appliedOffset (-5) = 0 := by
  have h := listUsers_pagination_invariants emptyStore 500 (-5)
  have h2 := h.2.1 (by norm_num)
  have h3 := h.2.2.2 (by norm_num)
  refine ⟨?_, h2, h3⟩
  rw [h.1, h2, h3]

/-- C3: for every syntactically valid identifier, a zero-row store answer
yields ErrUserNotFound (never the internal-failure variant), any other
store failure propagates as the distinct storeFailure variant, and the
handler maps the former to 404 and the latter to a 500 whose body is the
fixed generic message (the store error never appears in it). -/
theorem getUser_error_taxonomy (st : Store) (idStr canon : String)
    (hu : parseUUID idStr = some canon) :
    (st.getUserByIDRow canon = GetRowResult.noRows →
      (Service.GetUserByID st canon).1 = Except.error ServiceError.userNotFound
      ∧ Handler.HandleGetUser st idStr
          = (respondWithError 404 "user not found", [StoreCall.getCall canon]))
    ∧ (∀ e, st.getUserByIDRow canon = GetRowResult.failure e →
      (Service.GetUserByID st canon).1 = Except.error (ServiceError.storeFailure e)
      ∧ Handler.HandleGetUser st idStr
          = (respondWithError 500 "internal server error", [StoreCall.getCall canon])) := by
  have hne : (idStr == "") = false := by
    cases hb : idStr == "" with
    | true =>
      have he : idStr = "" := by simpa [beq_iff_eq] using hb
      rw [he] at hu
      have hnone : parseUUID "" = none := rfl
      rw [hnone] at hu
      cases hu
    | false => rfl
  constructor
  · intro hrow
    refine ⟨by simp [Service.GetUserByID, hrow], ?_⟩
    simp [Handler.HandleGetUser, hne, hu, Service.GetUserByID, hrow]
  · intro e hrow
    refine ⟨by simp [Service.GetUserByID, hrow], ?_⟩
    simp [Handler.HandleGetUser, hne, hu, Service.GetUserByID, hrow]

/-- C3 witness: a valid absent id on a store with no rows gives
ErrUserNotFound and a 404. -/
theorem getUser_error_taxonomy_witness :
    (Service.GetUserByID emptyStore "123e4567-e89b-12d3-a456-426614174000").1
        = Except.error ServiceError.userNotFound
    ∧ Handler.HandleGetUser emptyStore "123e4567-e89b-12d3-a456-426614174000"
        = (respondWithError 404 "user not found",
           [StoreCall.getCall "123e4567-e89b-12d3-a456-426614174000"]) := by
  have h := getUser_error_taxonomy emptyStore "123e4567-e89b-12d3-a456-426614174000"
    "123e4567-e89b-12d3-a456-426614174000" rfl
  exact h.1 rfl

/-- C8: a request whose id does not parse as a uuid (including the empty
id) is answered 400 with an error-message body and no store call is made. -/
theorem getUser_invalid_id_rejected (st : Store) (idStr : String)
    (h : parseUUID idStr = none) :
    (Handler.HandleGetUser st idStr).1.status = 400
    ∧ ((Handler.HandleGetUser st idStr).1.body
          = ResponseBody.errorMsg "user ID is required"
        ∨ (Handler.HandleGetUser st idStr).1.body
          = ResponseBody.errorMsg "invalid user ID format")
    ∧ (Handler.HandleGetUser st idStr).2 = [] := by
  cases hb : idStr == "" with
  | true =>
    refine ⟨?_, Or.inl ?_, ?_⟩ <;>
      simp [Handler.HandleGetUser, hb, respondWithError, respondWithJSON]
  | false =>
    refine ⟨?_, Or.inr ?_, ?_⟩ <;>
      simp [Handler.HandleGetUser, hb, h, respondWithError, respondWithJSON]

/-- C8 witness at the spec's "not-a-uuid" input. -/
theorem getUser_invalid_id_rejected_witness :
    (Handler.HandleGetUser emptyStore "not-a-uuid").1.status = 400
    ∧ (Handler.HandleGetUser emptyStore "not-a-uuid").2 = [] := by
  have h := getUser_invalid_id_rejected emptyStore "not-a-uuid" rfl
  exact ⟨h.1, h.2.2⟩

theorem handleListUsers_500_5 (st : Store) :
    Handler.HandleListUsers st "500" "5" =
      (match Service.ListUsers st 500 5 with
       | (Except.error _, calls) => (respondWithError 500 "internal server error", calls)
       | (Except.ok us, calls) =>
         (respondWithJSON 200 (ResponseBody.listBody us 500 5), calls)) := rfl

/-- C2 (amended): a negative offset (or limit) is rejected with 400 by the
handler before any store interaction — it is not clamped — so
limit=500&offset=-5 yields 400, not 200; and for an accepted request with
limit=500 the body echoes the requested, unclamped 500 while the store is
queried with the clamped limit 100. -/
theorem listUsers_out_of_range_behavior (st : Store) (us : List User)
    (h : st.listUsersRows 100 5 = ListRowsResult.rows us) :
    (Handler.HandleListUsers st "500" "-5").1.status = 400
    ∧ (Handler.HandleListUsers st "500" "-5").1.body
        = ResponseBody.errorMsg "invalid offset parameter"
    ∧ (Handler.HandleListUsers st "500" "-5").2 = []
    ∧ Handler.HandleListUsers st "500" "5"
        = (respondWithJSON 200 (ResponseBody.listBody us 500 5),
           [StoreCall.listCall 100 5]) := by
  refine ⟨rfl, rfl, rfl, ?_⟩
  rw [handleListUsers_500_5]
  have hstep : Service.ListUsers st 500 5
      = ((match st.listUsersRows 100 5 with
          | ListRowsResult.rows us2 => Except.ok us2
          | ListRowsResult.failure e => Except.error e),
         [StoreCall.listCall 100 5]) := rfl
  rw [hstep, h]

/-- C2 witness on the store with no rows. -/
theorem listUsers_out_of_range_behavior_witness :
    (Handler.HandleListUsers emptyStore "500" "-5").1.status = 400
    ∧ Handler.HandleListUsers emptyStore "500" "5"
        = (respondWithJSON 200 (ResponseBody.listBody [] 500 5),
           [StoreCall.listCall 100 5]) := by
  have h := listUsers_out_of_range_behavior emptyStore [] rfl
  exact ⟨h.1, h.2.2.2⟩

/-- C2 counterexample: limit=500&offset=-5 is answered 400, not the claimed
200 with clamped echoes. -/
theorem c2_clamp_echo_counterexample :
    (Handler.HandleListUsers emptyStore "500" "-5").1.status = 400
    ∧ (Handler.HandleListUsers emptyStore "500" "-5").1.status ≠ 200 := by
  exact ⟨rfl, by decide⟩

/- ### Lifecycle manager shutdown (cmd/server/main.go) -/

/-- Outcome of srv.Shutdown under the 30s drain context: either the drain
completed in time or the context deadline elapsed and connections were
force-closed (Shutdown returned an error). -/
inductive DrainOutcome where
  | completed
  | timedOut
deriving Repr, DecidableEq

inductive MainEvent where
  | logRecord (sev : Severity) (msg : String)
  | dbClose
  | telemetryFlush
  | exited (code : Nat)
deriving Repr, DecidableEq

/-- Events of main after the termination signal is received.  On a clean
drain, main returns and the deferred calls run (dbPool.Close, then the
telemetry shutdown hook, itself bounded by its own 5s context) before the
process exits 0.  On a drain timeout, main logs the error and calls
os.Exit(1), which terminates the process immediately without running any
deferred call. -/
def shutdownSequence (d : DrainOutcome) : List MainEvent :=
  MainEvent.logRecord Severity.info "shutting down server..." ::
    match d with
    | DrainOutcome.completed =>
      [MainEvent.logRecord Severity.info "server exited",
       MainEvent.dbClose, MainEvent.telemetryFlush, MainEvent.exited 0]
    | DrainOutcome.timedOut =>
      [MainEvent.logRecord Severity.error "server forced to shutdown",
       MainEvent.exited 1]

/-- C9 (amended): on either drain outcome the manager still exits, and on a
clean drain the registered shutdown hooks — in particular the telemetry
flush-and-close, bounded by its own timeout — run before the exit; but on a
drain timeout os.Exit(1) skips the deferred hooks, so they are NOT given a
chance to run on that path. -/
theorem shutdown_paths (d : DrainOutcome) :
    (∃ c, (shutdownSequence d).getLast? = some (MainEvent.exited c))
    ∧ (d = DrainOutcome.completed →
        MainEvent.telemetryFlush ∈ shutdownSequence d
        ∧ (shutdownSequence d).getLast? = some (MainEvent.exited 0))
    ∧ (d = DrainOutcome.timedOut →
        MainEvent.telemetryFlush ∉ shutdownSequence d
        ∧ (shutdownSequence d).getLast? = some (MainEvent.exited 1)) := by
  cases d with
  | completed =>
    refine ⟨⟨0, rfl⟩, ?_, ?_⟩
    · intro _
      exact ⟨by decide, rfl⟩
    · intro h
      cases h
  | timedOut =>
    refine ⟨⟨1, rfl⟩, ?_, ?_⟩
    · intro h
      cases h
    · intro _
      exact ⟨by decide, rfl⟩

/-- C9 witness on the clean-drain path. -/
theorem shutdown_paths_witness :
    MainEvent.telemetryFlush ∈ shutdownSequence DrainOutcome.completed
    ∧ (shutdownSequence DrainOutcome.completed).getLast?
        = some (MainEvent.exited 0) :=
  (shutdown_paths DrainOutcome.completed).2.1 rfl

/-- C9 counterexample: on the forced-shutdown path the manager exits but the
telemetry shutdown hook never runs, refuting "in every shutdown path the
registered shutdown hooks are given a chance to run". -/
theorem c9_forced_shutdown_skips_hooks :
    MainEvent.telemetryFlush ∉ shutdownSequence DrainOutcome.timedOut
    ∧ MainEvent.exited 1 ∈ shutdownSequence DrainOutcome.timedOut := by
  exact ⟨by decide, by decide⟩

/- ### Claims about the logger context -/

/-- C10 (amended): FromContext returns exactly what WithContext stored when
the logger key is present — which is a non-nil logger for every context this
repository builds — and the non-nil process default when the key is absent;
hence it is non-nil for every context whose stored entry (if any) is
non-nil.  (Storing a nil logger pointer is the one way to make it return
nil; see the counterexample.) -/
theorem fromContext_total (ctx : ReqContext) (l : Logger) :
    FromContext (WithContext ctx (some l)) = some l
    ∧ (ctx.loggerEntry = none → FromContext ctx = some defaultLogger)
    ∧ ((∀ p, ctx.loggerEntry = some p → p.isSome = true) →
        (FromContext ctx).isSome = true) := by
  refine ⟨rfl, ?_, ?_⟩
  · intro h
    simp [FromContext, h]
  · intro h
    cases hp : ctx.loggerEntry with
    | none => simp [FromContext, hp]
    | some p =>
      have := h p hp
      simp [FromContext, hp, this]

/-- C10 witness at the base context and the default logger. -/
theorem fromContext_total_witness :
    FromContext (WithContext ⟨none, none⟩ (some defaultLogger)) = some defaultLogger
    ∧ FromContext ⟨none, none⟩ = some defaultLogger
    ∧ (FromContext ⟨none, none⟩).isSome = true := by
  have h := fromContext_total ⟨none, none⟩ defaultLogger
  exact ⟨h.1, h.2.1 rfl, h.2.2 (fun p hp => by cases hp)⟩

/-- C10 counterexample: a context in which a nil logger pointer was stored
makes FromContext return that nil pointer, refuting "for every context
value FromContext returns a non-nil logger". -/
theorem c10_nil_logger_counterexample :
    FromContext (WithContext ⟨none, none⟩ none) = none := rfl
